import Mathlib

/-!
Verification development for the aggregation worker of the veneur metrics
agent (`worker.go`).  The worker's own code (`ProcessMetric`, `ImportMetric`,
`Flush`, the dispatch loop `Work`, `Stop`) is embedded directly from the
source.  The collaborating value types (`MetricKey`, `UDPMetric`,
`JSONMetric`) and the per-type accumulators (`Counter`, `Gauge`, `Histo`,
`Set`) live outside the provided source file, so they are modelled from the
specification's data model (§3): counter summation with sample-rate
compensation, gauge last-value, histograms as opaque observation folds, sets
as distinct-value collections with a fallible `combine`.  Go `float64`
values are modelled as rationals, Go `int64` counters as unbounded integers
(no claim concerns overflow), and Go maps as association lists with
update-or-append insertion.
-/

namespace Veneur

/-- Modelled from the spec: `MetricKey` is "a value composed of
`(name, type, tag-set-fingerprint)`", hashable/comparable; the definition of
the struct itself is outside the provided source. -/
structure MetricKey where
  name : String
  typ : String
  tagsFingerprint : String
deriving DecidableEq, Repr

/-- Modelled from the spec: a sample's `Value` is "float or string depending
on Type".  Go stores it as `interface\x7b\x7d`; the two possible dynamic
types are `float64` (modelled as `ℚ`) and `string`. -/
inductive MetricValue where
  | num (v : ℚ)
  | str (s : String)
deriving DecidableEq, Repr

/-- Modelled from the spec: `UDPMetric` is
`{Name, Type, Tags, Value, SampleRate, MetricKey}`; the struct definition is
outside the provided source. -/
structure UDPMetric where
  Name : String
  «Type» : String
  Tags : List String
  Value : MetricValue
  SampleRate : ℚ
  MetricKey : MetricKey
deriving DecidableEq, Repr

/-- Modelled from the spec: the encoded accumulator state carried by a peer
import.  `combine` "fails with a `MergeError` if the encoded state is
structurally invalid"; we model an encoded set state as either a valid list
of distinct-value tokens or a structurally malformed blob. -/
inductive EncodedState where
  | setElems (elems : List String)
  | malformed
deriving DecidableEq, Repr

/-- Modelled from the spec: `JSONMetric` is
`{Name, Type, Tags, MetricKey, Value: encoded accumulator state}`; the
struct definition is outside the provided source. -/
structure JSONMetric where
  Name : String
  «Type» : String
  Tags : List String
  MetricKey : MetricKey
  Value : EncodedState
deriving DecidableEq, Repr

/-- Modelled from the spec: the counter accumulator performs "counter
summation", `sample` "folds one observation into the running state,
compensating for sub-unity `sampleRate`", and construction from
`(name, tags)` "is otherwise empty/zero-valued". -/
structure Counter where
  name : String
  tags : List String
  value : ℚ
deriving DecidableEq, Repr

def NewCounter (name : String) (tags : List String) : Counter :=
  { name := name, tags := tags, value := 0 }

def Counter.sample (c : Counter) (v : ℚ) (rate : ℚ) : Counter :=
  { c with value := c.value + v * (1 / rate) }

/-- Modelled from the spec: the gauge accumulator keeps the "gauge
last-value". -/
structure Gauge where
  name : String
  tags : List String
  value : ℚ
deriving DecidableEq, Repr

def NewGauge (name : String) (tags : List String) : Gauge :=
  { name := name, tags := tags, value := 0 }

def Gauge.sample (g : Gauge) (v : ℚ) (_rate : ℚ) : Gauge :=
  { g with value := v }

/-- Modelled from the spec: histogram/timer accumulators are opaque
"histogram quantile estimation" state; we keep the exact fold of
observations `(value, sampleRate)` in arrival order, which is the most a
spec-level model can say about an opaque `sample` contract. -/
structure Histo where
  name : String
  tags : List String
  samples : List (ℚ × ℚ)
deriving DecidableEq, Repr

def NewHist (name : String) (tags : List String) : Histo :=
  { name := name, tags := tags, samples := [] }

def Histo.sample (h : Histo) (v : ℚ) (rate : ℚ) : Histo :=
  { h with samples := h.samples ++ [(v, rate)] }

/-- Modelled from the spec: the set accumulator tracks distinct string
tokens; `combine(encodedState)` "merges another accumulator's serialized
state into this one; fails with a `MergeError` if the encoded state is
structurally invalid". -/
structure Set where
  name : String
  tags : List String
  members : List String
deriving DecidableEq, Repr

def NewSet (name : String) (tags : List String) : Set :=
  { name := name, tags := tags, members := [] }

def Set.insertMember (members : List String) (s : String) : List String :=
  if s ∈ members then members else members ++ [s]

def Set.sample (st : Set) (s : String) (_rate : ℚ) : Set :=
  { st with members := Set.insertMember st.members s }

/-- Modelled from the spec: merging a peer's encoded set state.  A
structurally valid state contributes its distinct tokens; a malformed state
is rejected with an error and, per the spec, "does not ... corrupt the
existing accumulator". -/
def Set.combine (st : Set) (e : EncodedState) : Except String Set :=
  match e with
  | .setElems elems =>
      .ok { st with members := elems.foldl Set.insertMember st.members }
  | .malformed => .error "invalid encoded state"

/-- Go map lookup `m[k]`, on the association-list model of a map. -/
def mlookup {α : Type} : List (MetricKey × α) → MetricKey → Option α
  | [], _ => none
  | (k', v') :: rest, k => if k' = k then some v' else mlookup rest k

/-- Go map assignment `m[k] = v`: replaces the entry if the key is present,
otherwise adds one. -/
def minsert {α : Type} : List (MetricKey × α) → MetricKey → α → List (MetricKey × α)
  | [], k, v => [(k, v)]
  | (k', v') :: rest, k, v =>
      if k' = k then (k, v) :: rest else (k', v') :: minsert rest k v

/-- WorkerMetrics: "just a plain struct bundling together the flushed
contents of a worker" — five maps from `MetricKey` to accumulator
(`worker.go` lines 26–35). -/
structure WorkerMetrics where
  counters : List (MetricKey × Counter)
  gauges : List (MetricKey × Gauge)
  histograms : List (MetricKey × Histo)
  sets : List (MetricKey × Set)
  timers : List (MetricKey × Histo)
deriving DecidableEq, Repr

/-- NewWorkerMetrics returns the empty bundle of five maps
(`worker.go` lines 37–45). -/
def NewWorkerMetrics : WorkerMetrics :=
  { counters := [], gauges := [], histograms := [], sets := [], timers := [] }

/-- Worker state (`worker.go` lines 13–23).  The channels, mutex, statsd
client and logger are runtime facilities, not state the claims quantify
over: channel readiness is passed to the dispatch step explicitly, and the
statsd / log emissions are returned as explicit event lists. -/
structure Worker where
  id : Int
  processed : Int
  imported : Int
  wm : WorkerMetrics
deriving DecidableEq, Repr

/-- NewWorker creates, and returns a new Worker object
(`worker.go` lines 48–60). -/
def NewWorker (id : Int) : Worker :=
  { id := id, processed := 0, imported := 0, wm := NewWorkerMetrics }

/-- One logger emission: a message plus the single field attached to it
(`logger.WithField(..).Debug/Error(..)` or `.WithError(err).Error(..)`). -/
inductive LogEvent where
  | debug (msg : String) (field : String)
  | err (msg : String) (field : String)
deriving DecidableEq, Repr

/-- ProcessMetric takes a Metric and samples it (`worker.go` lines 78–121).
Returns the updated worker and the log events emitted, or `none` when the
Go type assertion `m.Value.(float64)` / `m.Value.(string)` fails (a panic in
the source; the spec calls this a caller contract violation).  The Go
`switch` on the metric type string is an equality chain. -/
def ProcessMetric (w : Worker) (m : UDPMetric) : Option (Worker × List LogEvent) :=
  let w1 : Worker := { w with processed := w.processed + 1 }
  if m.«Type» = "counter" then
    match m.Value with
    | .num v =>
        match mlookup w1.wm.counters m.MetricKey with
        | some c =>
            some ({ w1 with wm := { w1.wm with
                      counters := minsert w1.wm.counters m.MetricKey (c.sample v m.SampleRate) } },
                  [])
        | none =>
            some ({ w1 with wm := { w1.wm with
                      counters := minsert w1.wm.counters m.MetricKey
                        ((NewCounter m.Name m.Tags).sample v m.SampleRate) } },
                  [.debug "New counter" m.Name])
    | .str _ => none
  else if m.«Type» = "gauge" then
    match m.Value with
    | .num v =>
        match mlookup w1.wm.gauges m.MetricKey with
        | some g =>
            some ({ w1 with wm := { w1.wm with
                      gauges := minsert w1.wm.gauges m.MetricKey (g.sample v m.SampleRate) } },
                  [])
        | none =>
            some ({ w1 with wm := { w1.wm with
                      gauges := minsert w1.wm.gauges m.MetricKey
                        ((NewGauge m.Name m.Tags).sample v m.SampleRate) } },
                  [.debug "New gauge" m.Name])
    | .str _ => none
  else if m.«Type» = "histogram" then
    match m.Value with
    | .num v =>
        match mlookup w1.wm.histograms m.MetricKey with
        | some h =>
            some ({ w1 with wm := { w1.wm with
                      histograms := minsert w1.wm.histograms m.MetricKey (h.sample v m.SampleRate) } },
                  [])
        | none =>
            some ({ w1 with wm := { w1.wm with
                      histograms := minsert w1.wm.histograms m.MetricKey
                        ((NewHist m.Name m.Tags).sample v m.SampleRate) } },
                  [.debug "New histogram" m.Name])
    | .str _ => none
  else if m.«Type» = "set" then
    match m.Value with
    | .str s =>
        match mlookup w1.wm.sets m.MetricKey with
        | some st =>
            some ({ w1 with wm := { w1.wm with
                      sets := minsert w1.wm.sets m.MetricKey (st.sample s m.SampleRate) } },
                  [])
        | none =>
            some ({ w1 with wm := { w1.wm with
                      sets := minsert w1.wm.sets m.MetricKey
                        ((NewSet m.Name m.Tags).sample s m.SampleRate) } },
                  [.debug "New set" m.Name])
    | .num _ => none
  else if m.«Type» = "timer" then
    match m.Value with
    | .num v =>
        match mlookup w1.wm.timers m.MetricKey with
        | some h =>
            some ({ w1 with wm := { w1.wm with
                      timers := minsert w1.wm.timers m.MetricKey (h.sample v m.SampleRate) } },
                  [])
        | none =>
            some ({ w1 with wm := { w1.wm with
                      timers := minsert w1.wm.timers m.MetricKey
                        ((NewHist m.Name m.Tags).sample v m.SampleRate) } },
                  [.debug "New timer" m.Name])
    | .str _ => none
  else
    some (w1, [.err "Unknown metric type for processing" m.«Type»])

/-- ImportMetric merges a peer's pre-aggregated state (`worker.go` lines
123–144): increments `imported` (deliberately not `processed`), then for
type `set` looks up or creates the accumulator and calls `Combine`,
logging any merge error; an unknown type is logged and dropped. -/
def ImportMetric (w : Worker) (other : JSONMetric) : Worker × List LogEvent :=
  let w1 : Worker := { w with imported := w.imported + 1 }
  if other.«Type» = "set" then
    let found := mlookup w1.wm.sets other.MetricKey
    let st := match found with
      | some st => st
      | none => NewSet other.Name other.Tags
    let newLogs : List LogEvent := match found with
      | some _ => []
      | none => [.debug "New set" other.Name]
    match st.combine other.Value with
    | .ok st' =>
        ({ w1 with wm := { w1.wm with sets := minsert w1.wm.sets other.MetricKey st' } },
         newLogs)
    | .error e =>
        ({ w1 with wm := { w1.wm with sets := minsert w1.wm.sets other.MetricKey st } },
         newLogs ++ [.err "Could not merge sets" e])
  else
    (w1, [.err "Unknown metric type for importing" other.«Type»])

/-- One emission to the statsd sink.  The flush duration's numeric value is
wall-clock time, not modelled; the counts carry their values and tags. -/
inductive StatsEvent where
  | timeMs (metricName : String)
  | count (metricName : String) (value : Int) (tags : List String)
deriving DecidableEq, Repr

/-- Flush resets the worker's internal metrics and returns their contents
(`worker.go` lines 147–180): under the lock it captures the snapshot and
both counters and installs a fresh empty snapshot with zeroed counters;
after releasing the lock it emits the duration, the processed/imported
counts and the five per-type flushed-entry counts to statsd, and returns
the captured snapshot.  Result: (returned snapshot, statsd emissions,
worker state after the call). -/
def Flush (w : Worker) : WorkerMetrics × List StatsEvent × Worker :=
  let ret := w.wm
  let processed := w.processed
  let imported := w.imported
  let w' : Worker := { w with wm := NewWorkerMetrics, processed := 0, imported := 0 }
  (ret,
   [.timeMs "flush.worker_duration_ns",
    .count "worker.metrics_processed_total" processed ["worker:" ++ toString w.id],
    .count "worker.metrics_imported_total" imported ["worker:" ++ toString w.id],
    .count "worker.metrics_flushed_total" (ret.counters.length : Int) ["metric_type:counter"],
    .count "worker.metrics_flushed_total" (ret.gauges.length : Int) ["metric_type:gauge"],
    .count "worker.metrics_flushed_total" (ret.histograms.length : Int) ["metric_type:histogram"],
    .count "worker.metrics_flushed_total" (ret.sets.length : Int) ["metric_type:set"],
    .count "worker.metrics_flushed_total" (ret.timers.length : Int) ["metric_type:timer"]],
   w')

/-- Outcome of one iteration of the dispatch loop `Work`
(`worker.go` lines 62–73). -/
inductive StepResult where
  | ran (w : Worker) (logs : List LogEvent)
  | crashed
  | stopped (logs : List LogEvent)
  | blocked
deriving DecidableEq, Repr

/-- One iteration of the `select` in `Work` (`worker.go` lines 62–73).
`work` is the sample a sender has ready on `WorkChan` (if any), `quitClosed`
says whether `Stop` has closed `QuitChan`.  Per the Go specification, when
several `select` cases can proceed one is chosen by uniform pseudo-random
selection; `pickWork` resolves that nondeterministic choice when both
channels are ready.  When neither is ready the loop blocks. -/
def workStep (w : Worker) (work : Option UDPMetric) (quitClosed : Bool)
    (pickWork : Bool) : StepResult :=
  let runWork : UDPMetric → StepResult := fun m =>
    match ProcessMetric w m with
    | some (w', logs) => .ran w' logs
    | none => .crashed
  match work, quitClosed with
  | none, false => .blocked
  | some m, false => runWork m
  | none, true => .stopped [.err "Stopping" (toString w.id)]
  | some m, true =>
      if pickWork then runWork m
      else .stopped [.err "Stopping" (toString w.id)]

/-- Sequential delivery of samples to one worker, dropping the log stream:
the fold the dispatch loop performs when it keeps winning the select. -/
def processOnly (w : Worker) (m : UDPMetric) : Option Worker :=
  (ProcessMetric w m).map Prod.fst

def processAll (w : Worker) (ms : List UDPMetric) : Option Worker :=
  ms.foldlM processOnly w

/-- Reference fold for the routing invariant, for the numeric-valued
families (counter, gauge, histogram, timer): one step of the left fold of
the accumulator's `sample(value, sampleRate)` operation over the samples
that carry `MetricKey` `k` and type `tname`, in delivery order; samples for
other identities or types leave the accumulator untouched. -/
def numStep {α : Type} (tname : String) (mkAcc : String → List String → α)
    (samp : α → ℚ → ℚ → α) (k : MetricKey) (acc : Option α) (m : UDPMetric) :
    Option α :=
  if m.MetricKey = k ∧ m.«Type» = tname then
    match m.Value with
    | .num v => some (samp (acc.getD (mkAcc m.Name m.Tags)) v m.SampleRate)
    | .str _ => acc
  else acc

/-- Reference fold step for the string-valued family (set). -/
def strStep {α : Type} (tname : String) (mkAcc : String → List String → α)
    (samp : α → String → ℚ → α) (k : MetricKey) (acc : Option α) (m : UDPMetric) :
    Option α :=
  if m.MetricKey = k ∧ m.«Type» = tname then
    match m.Value with
    | .str s => some (samp (acc.getD (mkAcc m.Name m.Tags)) s m.SampleRate)
    | .num _ => acc
  else acc

/-- Discriminator: did the dispatch step receive and process a sample? -/
def StepResult.isRan : StepResult → Bool
  | .ran _ _ => true
  | _ => false

/-! ### Concrete inputs used by witnesses and counterexamples -/

def c8keyReq : MetricKey := { name := "requests", typ := "counter", tagsFingerprint := "" }

def c8mReq : UDPMetric :=
  { Name := "requests", «Type» := "counter", Tags := [], Value := .num 1,
    SampleRate := 1, MetricKey := c8keyReq }

def c8keyCpu : MetricKey := { name := "cpu", typ := "gauge", tagsFingerprint := "" }

def c8mCpu : UDPMetric :=
  { Name := "cpu", «Type» := "gauge", Tags := [], Value := .num (1/2),
    SampleRate := 1, MetricKey := c8keyCpu }

def c8run : List UDPMetric := [c8mReq, c8mReq, c8mReq, c8mCpu]

/-- Worker state after the C8 scenario run (three unit counter samples for
`requests`, one gauge sample `0.5` for `cpu`). -/
def c8final : Worker :=
  { id := 0, processed := 4, imported := 0,
    wm := { counters := [(c8keyReq, { name := "requests", tags := [], value := 3 })],
            gauges := [(c8keyCpu, { name := "cpu", tags := [], value := 1/2 })],
            histograms := [], sets := [], timers := [] } }

def c2kA : MetricKey := { name := "api.hits", typ := "counter", tagsFingerprint := "t1" }

def c2kB : MetricKey := { name := "api.lat", typ := "timer", tagsFingerprint := "t1" }

/-- An interleaved delivery: two counter samples for identity `c2kA` with a
timer sample for identity `c2kB` between them. -/
def c2ms : List UDPMetric :=
  [ { Name := "api.hits", «Type» := "counter", Tags := ["t1"], Value := .num 2,
      SampleRate := 1, MetricKey := c2kA },
    { Name := "api.lat", «Type» := "timer", Tags := ["t1"], Value := .num 7,
      SampleRate := 1, MetricKey := c2kB },
    { Name := "api.hits", «Type» := "counter", Tags := ["t1"], Value := .num 1,
      SampleRate := 1/2, MetricKey := c2kA } ]

/-- Worker state after delivering `c2ms` to a fresh worker. -/
def c2w : Worker :=
  { id := 0, processed := 3, imported := 0,
    wm := { counters := [(c2kA, { name := "api.hits", tags := ["t1"], value := 4 })],
            gauges := [], histograms := [], sets := [],
            timers := [(c2kB, { name := "api.lat", tags := ["t1"], samples := [(7, 1)] })] } }

def c3wA : Worker := { id := 0, processed := 5, imported := 11, wm := NewWorkerMetrics }

def c3wB : Worker := { id := 0, processed := 7, imported := 2, wm := NewWorkerMetrics }

def c5m : UDPMetric :=
  { Name := "x", «Type» := "bogus", Tags := [], Value := .num 1, SampleRate := 1,
    MetricKey := { name := "x", typ := "bogus", tagsFingerprint := "" } }

def c6key : MetricKey := { name := "users", typ := "set", tagsFingerprint := "" }

/-- A peer import of type `set` whose encoded state `Combine` rejects. -/
def c6j : JSONMetric :=
  { Name := "users", «Type» := "set", Tags := [], MetricKey := c6key,
    Value := .malformed }

/-- A worker that already holds a set accumulator for `c6key` with two
members. -/
def c6prior : Worker :=
  { id := 0, processed := 0, imported := 0,
    wm := { counters := [], gauges := [], histograms := [],
            sets := [(c6key, { name := "users", tags := [], members := ["a", "b"] })],
            timers := [] } }

def c1key : MetricKey := { name := "requests", typ := "counter", tagsFingerprint := "" }

/-- A worker that has seen identity `c1key` before the flush: its counter
accumulator stands at 5 and its counters are nonzero. -/
def c1w : Worker :=
  { id := 0, processed := 2, imported := 1,
    wm := { counters := [(c1key, { name := "requests", tags := [], value := 5 })],
            gauges := [], histograms := [], sets := [], timers := [] } }

def c1m : UDPMetric :=
  { Name := "requests", «Type» := "counter", Tags := [], Value := .num 1,
    SampleRate := 1, MetricKey := c1key }

def c9m : UDPMetric :=
  { Name := "y", «Type» := "counter", Tags := [], Value := .num 1, SampleRate := 1,
    MetricKey := { name := "y", typ := "counter", tagsFingerprint := "" } }

def c4m : UDPMetric :=
  { Name := "z", «Type» := "gauge", Tags := [], Value := .num 3, SampleRate := 1,
    MetricKey := { name := "z", typ := "gauge", tagsFingerprint := "" } }

def c4j : JSONMetric :=
  { Name := "users", «Type» := "set", Tags := [], MetricKey := c6key,
    Value := .setElems ["u1"] }

/-! ### Association-list map lemmas -/

theorem mlookup_minsert_self {α : Type} (l : List (MetricKey × α)) (k : MetricKey) (v : α) :
    mlookup (minsert l k v) k = some v := by
  induction l with
  | nil => simp [minsert, mlookup]
  | cons hd tl ih =>
      obtain ⟨k1, v1⟩ := hd
      by_cases h : k1 = k
      · simp [minsert, mlookup, h]
      · simp [minsert, mlookup, h, ih]

theorem mlookup_minsert_other {α : Type} (l : List (MetricKey × α)) (k k2 : MetricKey)
    (v : α) (h : k2 ≠ k) : mlookup (minsert l k v) k2 = mlookup l k2 := by
  induction l with
  | nil => simp [minsert, mlookup, Ne.symm h]
  | cons hd tl ih =>
      obtain ⟨k1, v1⟩ := hd
      by_cases h1 : k1 = k
      · subst h1
        simp [minsert, mlookup, Ne.symm h]
      · simp only [minsert, if_neg h1]
        by_cases h2 : k1 = k2
        · subst h2
          simp [mlookup]
        · simp [mlookup, h2, ih]

/-! ### Frame lemmas for the worker operations -/

/-- Every successful `ProcessMetric` call increments `processed` by one and
touches neither `imported` nor `id`. -/
theorem processMetric_frame (w : Worker) (m : UDPMetric) (w' : Worker)
    (logs : List LogEvent) (h : ProcessMetric w m = some (w', logs)) :
    w'.processed = w.processed + 1 ∧ w'.imported = w.imported ∧ w'.id = w.id := by
  obtain ⟨nm, ty, tg, val, sr, key⟩ := m
  simp only [ProcessMetric] at h
  split_ifs at h
  all_goals cases val
  all_goals try simp only at h
  all_goals
    first
      | exact Option.noConfusion h
      | (split at h
         all_goals
           simp only [Option.some.injEq, Prod.mk.injEq] at h
           obtain ⟨rfl, -⟩ := h
           simp)
      | (simp only [Option.some.injEq, Prod.mk.injEq] at h
         obtain ⟨rfl, -⟩ := h
         simp)

/-- Every `ImportMetric` call increments `imported` by one and touches
neither `processed` nor `id`, whatever the metric type and encoded state. -/
theorem importMetric_frame (w : Worker) (j : JSONMetric) :
    (ImportMetric w j).1.imported = w.imported + 1 ∧
    (ImportMetric w j).1.processed = w.processed ∧
    (ImportMetric w j).1.id = w.id := by
  simp only [ImportMetric]
  split_ifs
  · split <;> simp
  · simp

/-! ### Claim theorems -/

/-- C4: every call to `ProcessMetric` increments the worker's `processed`
counter by exactly one and leaves `imported` unchanged; every call to
`ImportMetric` increments `imported` by exactly one and leaves `processed`
unchanged. -/
theorem c4_processed_imported_separation (w : Worker) (m : UDPMetric)
    (j : JSONMetric) (w' : Worker) (logs : List LogEvent)
    (h : ProcessMetric w m = some (w', logs)) :
    (w'.processed = w.processed + 1 ∧ w'.imported = w.imported) ∧
    ((ImportMetric w j).1.imported = w.imported + 1 ∧
      (ImportMetric w j).1.processed = w.processed) := by
  obtain ⟨h1, h2, -⟩ := processMetric_frame w m w' logs h
  obtain ⟨h3, h4, -⟩ := importMetric_frame w j
  exact ⟨⟨h1, h2⟩, ⟨h3, h4⟩⟩

/-- Witness for C4 at a concrete gauge sample and a concrete set import on
a fresh worker. -/
theorem c4_witness :
    ((ProcessMetric (NewWorker 0) c4m).getD (NewWorker 0, [])).1.processed = 0 + 1 ∧
    (ImportMetric (NewWorker 0) c4j).1.imported = 0 + 1 := by
  have h := c4_processed_imported_separation (NewWorker 0) c4m c4j
    ((ProcessMetric (NewWorker 0) c4m).getD (NewWorker 0, [])).1
    ((ProcessMetric (NewWorker 0) c4m).getD (NewWorker 0, [])).2 (by decide)
  exact ⟨h.1.1, h.2.1⟩

/-- C10: every call to `ImportMetric` increments the `imported` counter by
exactly one, unconditionally — the increment happens before the type
dispatch, so unsupported types and rejected `Combine` states count too:
`imported` counts attempted imports, not successful merges. -/
theorem c10_imported_counts_attempts (w : Worker) (j : JSONMetric) :
    (ImportMetric w j).1.imported = w.imported + 1 :=
  (importMetric_frame w j).1

/-- C5: a sample whose `Type` is none of the five known families still
increments `processed`, leaves the worker otherwise untouched (in
particular all five mappings unchanged, so no entry is created anywhere),
emits the error log line, and returns normally. -/
theorem c5_unknown_type_dropped (w : Worker) (m : UDPMetric)
    (h1 : m.«Type» ≠ "counter") (h2 : m.«Type» ≠ "gauge")
    (h3 : m.«Type» ≠ "histogram") (h4 : m.«Type» ≠ "set")
    (h5 : m.«Type» ≠ "timer") :
    ProcessMetric w m =
      some ({ w with processed := w.processed + 1 },
            [.err "Unknown metric type for processing" m.«Type»]) := by
  simp only [ProcessMetric, if_neg h1, if_neg h2, if_neg h3, if_neg h4, if_neg h5]

/-- Witness for C5: processing the `"bogus"`-typed sample on a fresh
worker. -/
theorem c5_witness :
    ProcessMetric (NewWorker 0) c5m =
      some ({ NewWorker 0 with processed := (NewWorker 0).processed + 1 },
            [.err "Unknown metric type for processing" c5m.«Type»]) :=
  c5_unknown_type_dropped (NewWorker 0) c5m (by decide) (by decide) (by decide)
    (by decide) (by decide)

/-- C7: the worker state `Flush` leaves behind is exactly a fresh worker
with the same id — it contains no component of the returned snapshot, so
every subsequent `ProcessMetric`, `ImportMetric` or `Flush` call is a
function of the fresh state alone and can neither read nor mutate the
returned snapshot; two workers differing arbitrarily in their pre-flush
snapshots and counters are indistinguishable after flushing. -/
theorem c7_snapshot_ownership (w w2 : Worker) (h : w.id = w2.id) :
    (Flush w).2.2 = NewWorker w.id ∧ (Flush w).2.2 = (Flush w2).2.2 := by
  constructor
  · rfl
  · show NewWorker w.id = NewWorker w2.id
    rw [h]

/-- Witness for C7: a worker with accumulated state and a fresh worker with
the same id flush to identical post-states. -/
theorem c7_witness : (Flush c1w).2.2 = NewWorker c1w.id ∧ (Flush c1w).2.2 = (Flush (NewWorker 0)).2.2 :=
  c7_snapshot_ownership c1w (NewWorker 0) (by decide)

/-- C3 counterexample: the value `Flush` returns to its caller is only the
snapshot (`WorkerMetrics`); it carries no information about the two
counters.  The workers `c3wA` and `c3wB` hold different `processed`
(5 vs 7) and `imported` (11 vs 2) counters, yet `Flush` returns the
identical value to the caller for both — so the counters are not part of
what `Flush` returns, refuting "returns ... both the current Aggregate
Snapshot and the two counters". -/
theorem c3_counterexample :
    (Flush c3wA).1 = (Flush c3wB).1 ∧
    c3wA.processed = 5 ∧ c3wB.processed = 7 ∧
    c3wA.imported = 11 ∧ c3wB.imported = 2 :=
  ⟨rfl, rfl, rfl, rfl, rfl⟩

/-- C3 amended: `Flush`, called with no arguments, returns the current
snapshot to its caller; the two counters active since the previous flush
are captured atomically with it, reset to zero, and emitted on the
reporting side channel (`worker.metrics_processed_total`,
`worker.metrics_imported_total`) rather than returned. -/
theorem c3_flush_boundary (w : Worker) :
    (Flush w).1 = w.wm ∧
    StatsEvent.count "worker.metrics_processed_total" w.processed
        ["worker:" ++ toString w.id] ∈ (Flush w).2.1 ∧
    StatsEvent.count "worker.metrics_imported_total" w.imported
        ["worker:" ++ toString w.id] ∈ (Flush w).2.1 ∧
    (Flush w).2.2.processed = 0 ∧ (Flush w).2.2.imported = 0 := by
  refine ⟨rfl, ?_, ?_, rfl, rfl⟩ <;> simp [Flush]

/-- C1: immediately after `Flush` the worker's `processed` and `imported`
counters are zero and all five mappings of its live snapshot are empty;
a subsequent sample for any `MetricKey` — in particular one seen before
the flush — finds no accumulator and creates a brand-new one: after that
sample, the looked-up accumulator is the freshly constructed accumulator
holding exactly the one new observation, with no carry-over from the prior
window. -/
theorem c1_window_reset (w : Worker) :
    (Flush w).2.2.processed = 0 ∧ (Flush w).2.2.imported = 0 ∧
    (Flush w).2.2.wm.counters = [] ∧ (Flush w).2.2.wm.gauges = [] ∧
    (Flush w).2.2.wm.histograms = [] ∧ (Flush w).2.2.wm.sets = [] ∧
    (Flush w).2.2.wm.timers = [] ∧
    (∀ m v w' logs, m.«Type» = "counter" → m.Value = .num v →
      ProcessMetric (Flush w).2.2 m = some (w', logs) →
      mlookup w'.wm.counters m.MetricKey =
        some ((NewCounter m.Name m.Tags).sample v m.SampleRate)) ∧
    (∀ m v w' logs, m.«Type» = "gauge" → m.Value = .num v →
      ProcessMetric (Flush w).2.2 m = some (w', logs) →
      mlookup w'.wm.gauges m.MetricKey =
        some ((NewGauge m.Name m.Tags).sample v m.SampleRate)) ∧
    (∀ m v w' logs, m.«Type» = "histogram" → m.Value = .num v →
      ProcessMetric (Flush w).2.2 m = some (w', logs) →
      mlookup w'.wm.histograms m.MetricKey =
        some ((NewHist m.Name m.Tags).sample v m.SampleRate)) ∧
    (∀ m s w' logs, m.«Type» = "set" → m.Value = .str s →
      ProcessMetric (Flush w).2.2 m = some (w', logs) →
      mlookup w'.wm.sets m.MetricKey =
        some ((NewSet m.Name m.Tags).sample s m.SampleRate)) ∧
    (∀ m v w' logs, m.«Type» = "timer" → m.Value = .num v →
      ProcessMetric (Flush w).2.2 m = some (w', logs) →
      mlookup w'.wm.timers m.MetricKey =
        some ((NewHist m.Name m.Tags).sample v m.SampleRate)) := by
  have hw : (Flush w).2.2 = NewWorker w.id := rfl
  refine ⟨rfl, rfl, rfl, rfl, rfl, rfl, rfl, ?_, ?_, ?_, ?_, ?_⟩ <;>
  · intro m v w' logs hty hv h
    rw [hw] at h
    simp [ProcessMetric, hty, hv, NewWorker, NewWorkerMetrics, mlookup] at h
    obtain ⟨rfl, -⟩ := h
    simp [minsert, mlookup]

/-- Witness for C1: flushing `c1w` (whose counter accumulator for `c1key`
stands at 5) and processing one more counter sample for the same key
yields a brand-new accumulator holding only the new unit observation. -/
theorem c1_witness :
    mlookup ((ProcessMetric (Flush c1w).2.2 c1m).getD (NewWorker 0, [])).1.wm.counters
        c1m.MetricKey =
      some ((NewCounter c1m.Name c1m.Tags).sample 1 c1m.SampleRate) :=
  (c1_window_reset c1w).2.2.2.2.2.2.2.1 c1m 1
    ((ProcessMetric (Flush c1w).2.2 c1m).getD (NewWorker 0, [])).1
    ((ProcessMetric (Flush c1w).2.2 c1m).getD (NewWorker 0, [])).2
    (by decide) (by decide) (by with_unfolding_all rfl)

/-- C6 counterexample: an import of type `set` whose encoded state
`Combine` rejects, for an identity absent before the import, is not
invisible downstream: `ImportMetric` inserts a brand-new empty `Set`
accumulator before attempting the merge and leaves it in the map after the
failure, so the flushed window contains an entry for that identity. -/
theorem c6_counterexample :
    mlookup (NewWorker 0).wm.sets c6key = none ∧
    (ImportMetric (NewWorker 0) c6j).2 =
      [.debug "New set" "users", .err "Could not merge sets" "invalid encoded state"] ∧
    mlookup (Flush (ImportMetric (NewWorker 0) c6j).1).1.sets c6key =
      some (NewSet "users" []) := by
  refine ⟨rfl, by decide, by decide⟩

/-- C6 amended: when `ImportMetric` receives a set whose encoded state is
rejected by `Combine`, the import is discarded without aborting the worker
(the call returns normally and logs the merge error) and any pre-existing
`Set` accumulator for that `MetricKey` keeps its prior content; but when
no accumulator existed, a brand-new empty `Set` accumulator is inserted
before the merge attempt and remains, so the failed import is visible in
the flushed window as an empty entry rather than an absence.  Entries at
other keys and the other four mappings are untouched. -/
theorem c6_failed_combine (w : Worker) (j : JSONMetric)
    (hty : j.«Type» = "set") (hval : j.Value = .malformed) :
    LogEvent.err "Could not merge sets" "invalid encoded state" ∈ (ImportMetric w j).2 ∧
    mlookup (ImportMetric w j).1.wm.sets j.MetricKey =
      some ((mlookup w.wm.sets j.MetricKey).getD (NewSet j.Name j.Tags)) ∧
    (∀ k2, k2 ≠ j.MetricKey →
      mlookup (ImportMetric w j).1.wm.sets k2 = mlookup w.wm.sets k2) ∧
    (ImportMetric w j).1.wm.counters = w.wm.counters ∧
    (ImportMetric w j).1.wm.gauges = w.wm.gauges ∧
    (ImportMetric w j).1.wm.histograms = w.wm.histograms ∧
    (ImportMetric w j).1.wm.timers = w.wm.timers := by
  cases hf : mlookup w.wm.sets j.MetricKey with
  | none =>
      refine ⟨?_, ?_, ?_, ?_, ?_, ?_, ?_⟩
      · simp [ImportMetric, hty, hval, hf, Set.combine]
      · simp [ImportMetric, hty, hval, hf, Set.combine, mlookup_minsert_self]
      · intro k2 hk2
        simp [ImportMetric, hty, hval, hf, Set.combine,
          mlookup_minsert_other _ _ _ _ hk2]
      · simp [ImportMetric, hty, hval, hf, Set.combine]
      · simp [ImportMetric, hty, hval, hf, Set.combine]
      · simp [ImportMetric, hty, hval, hf, Set.combine]
      · simp [ImportMetric, hty, hval, hf, Set.combine]
  | some st =>
      refine ⟨?_, ?_, ?_, ?_, ?_, ?_, ?_⟩
      · simp [ImportMetric, hty, hval, hf, Set.combine]
      · simp [ImportMetric, hty, hval, hf, Set.combine, mlookup_minsert_self]
      · intro k2 hk2
        simp [ImportMetric, hty, hval, hf, Set.combine,
          mlookup_minsert_other _ _ _ _ hk2]
      · simp [ImportMetric, hty, hval, hf, Set.combine]
      · simp [ImportMetric, hty, hval, hf, Set.combine]
      · simp [ImportMetric, hty, hval, hf, Set.combine]
      · simp [ImportMetric, hty, hval, hf, Set.combine]

/-- Witness for C6 amended: importing the malformed-state set `c6j` into
`c6prior` (which holds members `a`, `b` for `c6key`) logs the merge error
and leaves the prior members unchanged. -/
theorem c6_witness :
    LogEvent.err "Could not merge sets" "invalid encoded state" ∈
      (ImportMetric c6prior c6j).2 ∧
    mlookup (ImportMetric c6prior c6j).1.wm.sets c6j.MetricKey =
      some ((mlookup c6prior.wm.sets c6j.MetricKey).getD (NewSet c6j.Name c6j.Tags)) := by
  have h := c6_failed_combine c6prior c6j (by decide) (by decide)
  exact ⟨h.1, h.2.1⟩

/-- C8: the concrete scenario — three unit counter samples for `requests`
at rate 1.0, then one gauge sample 0.5 for `cpu`, then a flush: the
returned snapshot has exactly one counter entry (`requests` at 3, the sum
of three rate-compensated unit observations), exactly one gauge entry
(`cpu` at 0.5), empty histogram/set/timer mappings, and at the moment of
flush `processed = 4` and `imported = 0`. -/
theorem c8_scenario :
    processAll (NewWorker 0) c8run = some c8final ∧
    (Flush c8final).1.counters =
      [(c8keyReq, { name := "requests", tags := [], value := 3 })] ∧
    (Flush c8final).1.gauges =
      [(c8keyCpu, { name := "cpu", tags := [], value := 1/2 })] ∧
    (Flush c8final).1.histograms = [] ∧
    (Flush c8final).1.sets = [] ∧
    (Flush c8final).1.timers = [] ∧
    c8final.processed = 4 ∧ c8final.imported = 0 := by
  refine ⟨by with_unfolding_all rfl, by with_unfolding_all rfl, by with_unfolding_all rfl, rfl, rfl, rfl, rfl, rfl⟩

/-- C9 counterexample: with a sample available on the inbound channel and
shutdown simultaneously pending, Go's `select` picks among the ready cases
by uniform pseudo-random selection; resolving that choice toward the quit
case stops the loop without processing the available sample — so "the
sample is processed rather than dropped" does not hold on this input. -/
theorem c9_counterexample :
    workStep (NewWorker 0) (some c9m) true false =
      .stopped [.err "Stopping" "0"] ∧
    (workStep (NewWorker 0) (some c9m) true false).isRan = false := by
  exact ⟨by decide, by decide⟩

/-- C9 amended: shutdown is observed only at the top of the dispatch loop,
where the worker would otherwise wait: with no shutdown pending an
available sample is always received and processed; with only shutdown
pending the loop stops; with neither the loop blocks.  A sample that has
been received is always fully processed within the same step, but when a
sample and shutdown are simultaneously ready the select resolves the
choice nondeterministically, and choosing the quit side discards the
available sample. -/
theorem c9_shutdown_at_loop_head (w : Worker) (m : UDPMetric) (b : Bool) :
    workStep w none false b = .blocked ∧
    workStep w none true b = .stopped [.err "Stopping" (toString w.id)] ∧
    (∀ w' logs, ProcessMetric w m = some (w', logs) →
      workStep w (some m) false b = .ran w' logs ∧
      workStep w (some m) true true = .ran w' logs) ∧
    workStep w (some m) true false = .stopped [.err "Stopping" (toString w.id)] := by
  refine ⟨rfl, rfl, ?_, rfl⟩
  intro w' logs h
  constructor <;> simp [workStep, h]

/-- One delivered sample changes the accumulator at an identity `k` in each
of the five mappings exactly as the corresponding reference fold step does:
a sample for `k` of the right family is folded in with `sample`, every
other sample leaves the accumulator at `k` untouched. -/
theorem processOnly_lookup (w0 w1 : Worker) (m : UDPMetric) (k : MetricKey)
    (h : processOnly w0 m = some w1) :
    mlookup w1.wm.counters k =
      numStep "counter" NewCounter Counter.sample k (mlookup w0.wm.counters k) m ∧
    mlookup w1.wm.gauges k =
      numStep "gauge" NewGauge Gauge.sample k (mlookup w0.wm.gauges k) m ∧
    mlookup w1.wm.histograms k =
      numStep "histogram" NewHist Histo.sample k (mlookup w0.wm.histograms k) m ∧
    mlookup w1.wm.sets k =
      strStep "set" NewSet Set.sample k (mlookup w0.wm.sets k) m ∧
    mlookup w1.wm.timers k =
      numStep "timer" NewHist Histo.sample k (mlookup w0.wm.timers k) m := by
  obtain ⟨nm, ty, tg, val, sr, key⟩ := m
  rw [processOnly] at h
  cases hpm : ProcessMetric w0 ⟨nm, ty, tg, val, sr, key⟩ with
  | none => rw [hpm] at h; exact Option.noConfusion h
  | some p =>
      obtain ⟨wa, logs⟩ := p
      rw [hpm] at h
      simp only [Option.map_some', Option.some.injEq] at h
      subst h
      simp only [ProcessMetric] at hpm
      split_ifs at hpm with h1 h2 h3 h4 h5
      · -- counter
        cases val with
        | str s => simp at hpm
        | num v =>
            cases hl : mlookup w0.wm.counters key with
            | some c =>
                rw [hl] at hpm
                simp only [Option.some.injEq, Prod.mk.injEq] at hpm
                obtain ⟨rfl, -⟩ := hpm
                refine ⟨?_, ?_, ?_, ?_, ?_⟩
                · by_cases hk : key = k
                  · subst hk
                    simp [numStep, h1, hl, mlookup_minsert_self]
                  · simp [numStep, h1, hk,
                      mlookup_minsert_other _ _ _ _ (Ne.symm hk)]
                · simp [numStep, h1]
                · simp [numStep, h1]
                · simp [strStep, h1]
                · simp [numStep, h1]
            | none =>
                rw [hl] at hpm
                simp only [Option.some.injEq, Prod.mk.injEq] at hpm
                obtain ⟨rfl, -⟩ := hpm
                refine ⟨?_, ?_, ?_, ?_, ?_⟩
                · by_cases hk : key = k
                  · subst hk
                    simp [numStep, h1, hl, mlookup_minsert_self]
                  · simp [numStep, h1, hk,
                      mlookup_minsert_other _ _ _ _ (Ne.symm hk)]
                · simp [numStep, h1]
                · simp [numStep, h1]
                · simp [strStep, h1]
                · simp [numStep, h1]
      · -- gauge
        cases val with
        | str s => simp at hpm
        | num v =>
            cases hl : mlookup w0.wm.gauges key with
            | some g =>
                rw [hl] at hpm
                simp only [Option.some.injEq, Prod.mk.injEq] at hpm
                obtain ⟨rfl, -⟩ := hpm
                refine ⟨?_, ?_, ?_, ?_, ?_⟩
                · simp [numStep, h1, h2]
                · by_cases hk : key = k
                  · subst hk
                    simp [numStep, h1, h2, hl, mlookup_minsert_self]
                  · simp [numStep, h1, h2, hk,
                      mlookup_minsert_other _ _ _ _ (Ne.symm hk)]
                · simp [numStep, h1, h2]
                · simp [strStep, h1, h2]
                · simp [numStep, h1, h2]
            | none =>
                rw [hl] at hpm
                simp only [Option.some.injEq, Prod.mk.injEq] at hpm
                obtain ⟨rfl, -⟩ := hpm
                refine ⟨?_, ?_, ?_, ?_, ?_⟩
                · simp [numStep, h1, h2]
                · by_cases hk : key = k
                  · subst hk
                    simp [numStep, h1, h2, hl, mlookup_minsert_self]
                  · simp [numStep, h1, h2, hk,
                      mlookup_minsert_other _ _ _ _ (Ne.symm hk)]
                · simp [numStep, h1, h2]
                · simp [strStep, h1, h2]
                · simp [numStep, h1, h2]
      · -- histogram
        cases val with
        | str s => simp at hpm
        | num v =>
            cases hl : mlookup w0.wm.histograms key with
            | some hh =>
                rw [hl] at hpm
                simp only [Option.some.injEq, Prod.mk.injEq] at hpm
                obtain ⟨rfl, -⟩ := hpm
                refine ⟨?_, ?_, ?_, ?_, ?_⟩
                · simp [numStep, h1, h2, h3]
                · simp [numStep, h1, h2, h3]
                · by_cases hk : key = k
                  · subst hk
                    simp [numStep, h1, h2, h3, hl, mlookup_minsert_self]
                  · simp [numStep, h1, h2, h3, hk,
                      mlookup_minsert_other _ _ _ _ (Ne.symm hk)]
                · simp [strStep, h1, h2, h3]
                · simp [numStep, h1, h2, h3]
            | none =>
                rw [hl] at hpm
                simp only [Option.some.injEq, Prod.mk.injEq] at hpm
                obtain ⟨rfl, -⟩ := hpm
                refine ⟨?_, ?_, ?_, ?_, ?_⟩
                · simp [numStep, h1, h2, h3]
                · simp [numStep, h1, h2, h3]
                · by_cases hk : key = k
                  · subst hk
                    simp [numStep, h1, h2, h3, hl, mlookup_minsert_self]
                  · simp [numStep, h1, h2, h3, hk,
                      mlookup_minsert_other _ _ _ _ (Ne.symm hk)]
                · simp [strStep, h1, h2, h3]
                · simp [numStep, h1, h2, h3]
      · -- set
        cases val with
        | num v => simp at hpm
        | str s =>
            cases hl : mlookup w0.wm.sets key with
            | some st =>
                rw [hl] at hpm
                simp only [Option.some.injEq, Prod.mk.injEq] at hpm
                obtain ⟨rfl, -⟩ := hpm
                refine ⟨?_, ?_, ?_, ?_, ?_⟩
                · simp [numStep, h1, h2, h3, h4]
                · simp [numStep, h1, h2, h3, h4]
                · simp [numStep, h1, h2, h3, h4]
                · by_cases hk : key = k
                  · subst hk
                    simp [strStep, h1, h2, h3, h4, hl, mlookup_minsert_self]
                  · simp [strStep, h1, h2, h3, h4, hk,
                      mlookup_minsert_other _ _ _ _ (Ne.symm hk)]
                · simp [numStep, h1, h2, h3, h4]
            | none =>
                rw [hl] at hpm
                simp only [Option.some.injEq, Prod.mk.injEq] at hpm
                obtain ⟨rfl, -⟩ := hpm
                refine ⟨?_, ?_, ?_, ?_, ?_⟩
                · simp [numStep, h1, h2, h3, h4]
                · simp [numStep, h1, h2, h3, h4]
                · simp [numStep, h1, h2, h3, h4]
                · by_cases hk : key = k
                  · subst hk
                    simp [strStep, h1, h2, h3, h4, hl, mlookup_minsert_self]
                  · simp [strStep, h1, h2, h3, h4, hk,
                      mlookup_minsert_other _ _ _ _ (Ne.symm hk)]
                · simp [numStep, h1, h2, h3, h4]
      · -- timer
        cases val with
        | str s => simp at hpm
        | num v =>
            cases hl : mlookup w0.wm.timers key with
            | some hh =>
                rw [hl] at hpm
                simp only [Option.some.injEq, Prod.mk.injEq] at hpm
                obtain ⟨rfl, -⟩ := hpm
                refine ⟨?_, ?_, ?_, ?_, ?_⟩
                · simp [numStep, h1, h2, h3, h4, h5]
                · simp [numStep, h1, h2, h3, h4, h5]
                · simp [numStep, h1, h2, h3, h4, h5]
                · simp [strStep, h1, h2, h3, h4, h5]
                · by_cases hk : key = k
                  · subst hk
                    simp [numStep, h1, h2, h3, h4, h5, hl, mlookup_minsert_self]
                  · simp [numStep, h1, h2, h3, h4, h5, hk,
                      mlookup_minsert_other _ _ _ _ (Ne.symm hk)]
            | none =>
                rw [hl] at hpm
                simp only [Option.some.injEq, Prod.mk.injEq] at hpm
                obtain ⟨rfl, -⟩ := hpm
                refine ⟨?_, ?_, ?_, ?_, ?_⟩
                · simp [numStep, h1, h2, h3, h4, h5]
                · simp [numStep, h1, h2, h3, h4, h5]
                · simp [numStep, h1, h2, h3, h4, h5]
                · simp [strStep, h1, h2, h3, h4, h5]
                · by_cases hk : key = k
                  · subst hk
                    simp [numStep, h1, h2, h3, h4, h5, hl, mlookup_minsert_self]
                  · simp [numStep, h1, h2, h3, h4, h5, hk,
                      mlookup_minsert_other _ _ _ _ (Ne.symm hk)]
      · -- unknown type
        simp only [Option.some.injEq, Prod.mk.injEq] at hpm
        obtain ⟨rfl, -⟩ := hpm
        refine ⟨?_, ?_, ?_, ?_, ?_⟩ <;>
          simp [numStep, strStep, h1, h2, h3, h4, h5]

/-- C2: for every delivery sequence processed by one worker, the
accumulator state at an identity `k` in each of the five mappings equals
the left fold of the reference `sample` step over the delivered samples in
delivery order; the step ignores samples carrying other identities, so the
result is unaffected by interleaving. -/
theorem c2_routing_fold (ms : List UDPMetric) (k : MetricKey) (w0 w : Worker)
    (h : processAll w0 ms = some w) :
    mlookup w.wm.counters k =
      ms.foldl (numStep "counter" NewCounter Counter.sample k)
        (mlookup w0.wm.counters k) ∧
    mlookup w.wm.gauges k =
      ms.foldl (numStep "gauge" NewGauge Gauge.sample k)
        (mlookup w0.wm.gauges k) ∧
    mlookup w.wm.histograms k =
      ms.foldl (numStep "histogram" NewHist Histo.sample k)
        (mlookup w0.wm.histograms k) ∧
    mlookup w.wm.sets k =
      ms.foldl (strStep "set" NewSet Set.sample k)
        (mlookup w0.wm.sets k) ∧
    mlookup w.wm.timers k =
      ms.foldl (numStep "timer" NewHist Histo.sample k)
        (mlookup w0.wm.timers k) := by
  induction ms generalizing w0 with
  | nil =>
      simp only [processAll, List.foldlM_nil, pure, Option.some.injEq] at h
      subst h
      exact ⟨rfl, rfl, rfl, rfl, rfl⟩
  | cons m rest ih =>
      rw [processAll, List.foldlM_cons] at h
      cases hstep : processOnly w0 m with
      | none =>
          rw [hstep] at h
          simp at h
      | some w1 =>
      rw [hstep] at h
      have hrest : processAll w1 rest = some w := h
      obtain ⟨e1, e2, e3, e4, e5⟩ := processOnly_lookup w0 w1 m k hstep
      obtain ⟨f1, f2, f3, f4, f5⟩ := ih w1 hrest
      refine ⟨?_, ?_, ?_, ?_, ?_⟩ <;>
        simp only [List.foldl_cons]
      · rw [f1, e1]
      · rw [f2, e2]
      · rw [f3, e3]
      · rw [f4, e4]
      · rw [f5, e5]

/-- Witness for C2: the interleaved delivery `c2ms` (counter for `c2kA`,
timer for `c2kB`, counter for `c2kA` at rate 0.5) folded into a fresh
worker. -/
theorem c2_witness :
    mlookup c2w.wm.counters c2kA =
      c2ms.foldl (numStep "counter" NewCounter Counter.sample c2kA)
        (mlookup (NewWorker 0).wm.counters c2kA) ∧
    mlookup c2w.wm.gauges c2kA =
      c2ms.foldl (numStep "gauge" NewGauge Gauge.sample c2kA)
        (mlookup (NewWorker 0).wm.gauges c2kA) ∧
    mlookup c2w.wm.histograms c2kA =
      c2ms.foldl (numStep "histogram" NewHist Histo.sample c2kA)
        (mlookup (NewWorker 0).wm.histograms c2kA) ∧
    mlookup c2w.wm.sets c2kA =
      c2ms.foldl (strStep "set" NewSet Set.sample c2kA)
        (mlookup (NewWorker 0).wm.sets c2kA) ∧
    mlookup c2w.wm.timers c2kA =
      c2ms.foldl (numStep "timer" NewHist Histo.sample c2kA)
        (mlookup (NewWorker 0).wm.timers c2kA) :=
  c2_routing_fold c2ms c2kA (NewWorker 0) c2w (by with_unfolding_all rfl)

/-- Witness for C9 amended: with no shutdown pending, the step processes
the available sample. -/
theorem c9_witness :
    workStep (NewWorker 0) (some c9m) false false =
      .ran ((ProcessMetric (NewWorker 0) c9m).getD (NewWorker 0, [])).1
        ((ProcessMetric (NewWorker 0) c9m).getD (NewWorker 0, [])).2 :=
  ((c9_shutdown_at_loop_head (NewWorker 0) c9m false).2.2.1
    ((ProcessMetric (NewWorker 0) c9m).getD (NewWorker 0, [])).1
    ((ProcessMetric (NewWorker 0) c9m).getD (NewWorker 0, [])).2 (by with_unfolding_all rfl)).1

end Veneur
